import Mathlib

/-!
# Verification of the ModelWar bridge (`modelwar_bridge.py`)

A shallow embedding of the session-bridge script: the pending-call registry
used by `bridge_request`, the stdin reader thread's per-line dispatch
(`_stdin_reader_thread`), the agent-message translator (`run_agent`) and the
main command loop (`main`).  Python dict/future state is made explicit:

* `pending_requests : dict[str, asyncio.Future]` becomes an association list
  `List (Nat × FutureState)`; `uuid.uuid4()` is modelled by a fresh counter
  `nextId` (the code relies on uuid4 ids never colliding, which the counter
  realises by construction).
* An `asyncio.Future` is a `FutureState`: unsettled, or settled with a
  result (`set_result`) or an exception (`set_exception`).
* stdout JSON messages become the `Event` inductive; stderr `debug` lines
  are modelled only by how many are written (their text is diagnostic).
* The mutable flag cells `interrupt_flag` / `user_message_flag` /
  `query_active` (1-element lists in Python) and `run_agent`'s local
  `streamed_text` are fields of one explicit `SysState` record.
-/

/-- State of one `asyncio.Future` held in `pending_requests`. -/
inductive FutureState
  | unsettled
  | doneOk (data : String)
  | doneErr (reason : String)
deriving DecidableEq

/-- The `pending_requests` dict plus the fresh-id supply standing for
`uuid.uuid4()`. -/
structure Registry where
  pending : List (Nat × FutureState)
  nextId : Nat
deriving DecidableEq

/-- `pending_requests[request_id]` lookup (`request_id in pending_requests`
plus reading the future). -/
def registryLookup (r : Registry) (rid : Nat) : Option FutureState :=
  (r.pending.find? (fun p => p.1 == rid)).map (fun p => p.2)

/-- `future.set_result` / `future.set_exception` on the slot for `rid`. -/
def registrySettle (r : Registry) (rid : Nat) (v : FutureState) : Registry :=
  ⟨r.pending.map (fun p => if p.1 = rid then (p.1, v) else p), r.nextId⟩

/-- `pending_requests.pop(request_id, None)`. -/
def registryRemove (r : Registry) (rid : Nat) : Registry :=
  ⟨r.pending.filter (fun p => p.1 != rid), r.nextId⟩

/-- The value the stdin thread settles a future with: `set_exception` when
`is_error` else `set_result` (from `_stdin_reader_thread`). -/
def settleValue (isError : Bool) (data : String) : FutureState :=
  if isError then FutureState.doneErr data else FutureState.doneOk data

/-- Invariant of the registry: every pending key was issued by the counter. -/
def regInv (r : Registry) : Bool :=
  r.pending.all (fun p => decide (p.1 < r.nextId))

/-- Outbound stdout JSON messages (`emit` calls), one constructor per
`"type"` value the script produces. -/
inductive Event
  | sessionReady
  | toolRequest (id : Nat) (tool : String)
  | streamToolStart (name : String)
  | streamThinkingStart
  | streamTextStart
  | streamTextDelta (text : String)
  | streamThinkingDelta (text : String)
  | streamContentStop
  | agentText (content : String)
  | agentThinking (content : String)
  | agentToolUse (name : String) (input : String)
  | agentToolResult (content : String) (isError : Bool)
  | turnEnded
  | log (message : String) (level : String)
  | error (message : String)
deriving DecidableEq

/-- Parsed inbound commands (the `"command"` discriminator).  A JSON object
whose `command` value is none of the known five is `unknown` (the reader
queues it; the main loop's `if/elif` chain has no branch for it). -/
inductive Command
  | startSession
  | userMessage (text : String)
  | setContext (warriorCode : String) (recentBattle : String)
  | toolResponse (requestId : Option Nat) (data : String) (isError : Bool)
  | shutdown
  | unknown (name : String)
deriving DecidableEq

/-- One raw stdin line after `strip()`: empty, JSON that fails to parse, or
a parsed command. -/
inductive InLine
  | blank
  | malformed (raw : String)
  | parsed (c : Command)
deriving DecidableEq

def isToolResponse : Command → Bool
  | Command.toolResponse _ _ _ => true
  | _ => false

/-- Messages produced by the agent runtime and consumed by `run_agent`.
`StreamPayload` covers the `StreamEvent` cases the code inspects;
`otherMsg` is any message type with no matching `isinstance` branch. -/
inductive StreamPayload
  | startToolUse (name : String)
  | startThinking
  | startText
  | startOther
  | deltaText (text : String)
  | deltaThinking (text : String)
  | deltaOther
  | stop
deriving DecidableEq

/-- Content blocks of an `AssistantMessage`. -/
inductive ContentBlock
  | textBlock (text : String)
  | thinkingBlock (thinking : String)
  | toolUseBlock (name : String) (input : String)
  | toolResultBlock (content : String) (isError : Bool)
deriving DecidableEq

inductive RuntimeMsg
  | streamEvent (p : StreamPayload)
  | assistantMessage (blocks : List ContentBlock)
  | resultMessage (isError : Bool)
  | otherMsg
deriving DecidableEq

/-- The whole mutable state the three activities share: the registry, the
command queue, `current_context`, the `client`/`running` lifecycle and the
four boolean flags threaded through `main` and `run_agent`. -/
structure SysState where
  registry : Registry
  commandQueue : List Command
  currentContext : String
  clientActive : Bool
  running : Bool
  interruptFlag : Bool
  userMessageFlag : Bool
  queryActive : Bool
  streamedText : Bool
deriving DecidableEq

/-- Result of one stdin-reader line step: the new shared state, the stdout
events written (the reader writes none), and how many stderr `debug` lines
it printed. -/
structure ReaderOut where
  state : SysState
  events : List Event
  debugCount : Nat
deriving DecidableEq

/-- One iteration of the loop body of `_stdin_reader_thread` for one line.
`tool_response` is handled in place (membership test, `future.done()` test,
then `set_result`/`set_exception` via `call_soon_threadsafe`, modelled as
the settlement taking effect); every other parsed command is appended to
`command_queue`; malformed JSON is logged to stderr and skipped. -/
def readerLineStep (s : SysState) : InLine → ReaderOut
  | InLine.blank => ⟨s, [], 0⟩
  | InLine.malformed _ => ⟨s, [], 1⟩
  | InLine.parsed (Command.toolResponse req d e) =>
    match req with
    | none => ⟨s, [], 3⟩
    | some rid =>
      match registryLookup s.registry rid with
      | some FutureState.unsettled =>
        ⟨{ s with registry := registrySettle s.registry rid (settleValue e d) }, [], 3⟩
      | some _ => ⟨s, [], 3⟩
      | none => ⟨s, [], 3⟩
  | InLine.parsed c => ⟨{ s with commandQueue := s.commandQueue ++ [c] }, [], 1⟩

/-- What `_stdin_reader_thread` does when `sys.stdin` reaches end of input:
the `for` loop ends, one stderr debug line is written, and the thread
returns.  Nothing is enqueued, no event is emitted, no state changes. -/
def readerAtEof (s : SysState) : ReaderOut := ⟨s, [], 1⟩

/-- The main loop's behaviour when `command_queue.get` times out after 0.5s:
`continue`, i.e. the state is untouched. -/
def mainIdleStep (s : SysState) : SysState := s

/-- `n` successive idle iterations of the main loop. -/
def mainIdleIter (s : SysState) : Nat → SysState
  | 0 => s
  | n + 1 => mainIdleIter (mainIdleStep s) n

-- --- Tool Bridge (`bridge_request` / `call_tool`) ---

/-- The `timeout=30.0` passed to `asyncio.wait_for` in `bridge_request`. -/
def bridgeTimeoutSeconds : Nat := 30

/-- How one `bridge_request`'s future ends up: the stdin reader settles it
at some time (before or after the deadline), no `tool_response` ever
arrives, or the task is cancelled (session shutdown / loop teardown). -/
inductive Completion
  | settled (atTime : Nat) (isError : Bool) (data : String)
  | noResponse
  | cancelledAtShutdown
deriving DecidableEq

/-- What `bridge_request` itself produces: the awaited payload, the
exception stored by `set_exception`, `asyncio.TimeoutError`, or
cancellation. -/
inductive BridgeResult
  | ok (data : String)
  | err (reason : String)
  | timedOut
  | cancelled
deriving DecidableEq

structure BridgeRunOut where
  registry : Registry
  rid : Nat
  events : List Event
  result : BridgeResult
deriving DecidableEq

/-- The whole lifecycle of one `bridge_request(tool, arguments)` call:
allocate a fresh id and future, publish the `tool_request` event, await
the future with the 30-unit deadline, and in `finally` pop the registry
entry.  On the error path (`set_exception`) the stored exception
propagates out of `wait_for`, so no "Tool resolved" log is emitted; on
timeout the timeout log is written and `TimeoutError` re-raised; on
cancellation the `finally` still pops.  (The elapsed-seconds text
interpolated into the log strings is elided.) -/
def bridgeRequestRun (r : Registry) (tool : String) (c : Completion) : BridgeRunOut :=
  let rid := r.nextId
  let r1 : Registry := ⟨(rid, FutureState.unsettled) :: r.pending, r.nextId + 1⟩
  let evs : List Event :=
    [Event.log ("Tool request: " ++ tool) "info", Event.toolRequest rid tool]
  match c with
  | Completion.settled t isErr data =>
    if t < bridgeTimeoutSeconds then
      let r2 := registrySettle r1 rid (settleValue isErr data)
      { registry := registryRemove r2 rid
        rid := rid
        events := evs ++ (if isErr then [] else [Event.log ("Tool resolved: " ++ tool) "debug"])
        result := if isErr then BridgeResult.err data else BridgeResult.ok data }
    else
      { registry := registryRemove r1 rid
        rid := rid
        events := evs ++ [Event.log ("Tool TIMEOUT: " ++ tool) "error"]
        result := BridgeResult.timedOut }
  | Completion.noResponse =>
      { registry := registryRemove r1 rid
        rid := rid
        events := evs ++ [Event.log ("Tool TIMEOUT: " ++ tool) "error"]
        result := BridgeResult.timedOut }
  | Completion.cancelledAtShutdown =>
      { registry := registryRemove r1 rid
        rid := rid
        events := evs
        result := BridgeResult.cancelled }

/-- Ids handed out by a sequence of `bridge_request` calls run one after the
other against the same registry. -/
def bridgeSeq (r : Registry) : List (String × Completion) → List Nat × Registry
  | [] => ([], r)
  | tc :: rest =>
    let out := bridgeRequestRun r tc.1 tc.2
    let tail := bridgeSeq out.registry rest
    (out.rid :: tail.1, tail.2)

/-- What `call_tool` hands back to the runtime: the text content on
success, or the message of the exception it raises (`TimeoutError` and
generic failures are wrapped with distinct prefixes); a cancellation is
not caught by its `except Exception` handler. -/
inductive CallToolOut
  | content (text : String)
  | raisedMessage (message : String)
  | cancelledCall
deriving DecidableEq

def callToolOutcome (name : String) : BridgeResult → CallToolOut
  | BridgeResult.ok data => CallToolOut.content data
  | BridgeResult.err reason => CallToolOut.raisedMessage ("Tool request failed: " ++ reason)
  | BridgeResult.timedOut => CallToolOut.raisedMessage ("Tool request timed out: " ++ name)
  | BridgeResult.cancelled => CallToolOut.cancelledCall

/-- Did the call end with a failure settlement, i.e. a reason stored by
`set_exception` and raised out of `wait_for`?  (Timeouts and cancellations
are distinct endings: no failure payload is ever stored in the slot.) -/
def isFailureResult : BridgeResult → Bool
  | BridgeResult.err _ => true
  | _ => false

-- --- Event Translator (`run_agent`) ---

/-- Events emitted for one `StreamEvent`, plus whether this event sets
`streamed_text` (only a `content_block_start` of type `text` does). -/
def streamEventOut : StreamPayload → List Event × Bool
  | StreamPayload.startToolUse n => ([Event.streamToolStart n], false)
  | StreamPayload.startThinking => ([Event.streamThinkingStart], false)
  | StreamPayload.startText => ([Event.streamTextStart], true)
  | StreamPayload.startOther => ([], false)
  | StreamPayload.deltaText t => ([Event.streamTextDelta t], false)
  | StreamPayload.deltaThinking t => ([Event.streamThinkingDelta t], false)
  | StreamPayload.deltaOther => ([], false)
  | StreamPayload.stop => ([Event.streamContentStop], false)

/-- Truthiness of `block.text.strip()`: does the text contain any
non-whitespace character? -/
def hasVisibleText (t : String) : Bool :=
  t.toList.any (fun c => !c.isWhitespace)

/-- Events emitted for one block of an `AssistantMessage`.  A `TextBlock`
is skipped when `streamed_text` is set, and also when
`block.text.strip()` is empty; a `ThinkingBlock` is skipped only when
`streamed_text` is set; tool-use and tool-result blocks are always
forwarded.  (`json.dumps(block.input)` is modelled as the already
serialized `input` string.) -/
def emitBlock (streamedText : Bool) : ContentBlock → List Event
  | ContentBlock.textBlock t =>
    if streamedText then []
    else if hasVisibleText t then [Event.agentText t] else []
  | ContentBlock.thinkingBlock t =>
    if streamedText then [] else [Event.agentThinking t]
  | ContentBlock.toolUseBlock n i => [Event.agentToolUse n i]
  | ContentBlock.toolResultBlock c e => [Event.agentToolResult c e]

def agentBlocksEvents (streamedText : Bool) (blocks : List ContentBlock) : List Event :=
  (blocks.map (emitBlock streamedText)).flatten

/-- Is this one of the aggregate emissions the de-duplication rule is
about? -/
def isAggregateEvent : Event → Bool
  | Event.agentText _ => true
  | Event.agentThinking _ => true
  | _ => false

/-- One iteration of `run_agent`'s `async for` body for one runtime
message.  On a `ResultMessage`: `query_active` and `streamed_text` are
cleared first; a set `interrupt_flag` swallows the completion (no
outward event); otherwise the "Turn ended" log and the `turn_ended`
event are emitted (the `user_message_flag` branch and the fall-through
branch emit the same pair). -/
def runAgentStep (s : SysState) : RuntimeMsg → SysState × List Event
  | RuntimeMsg.streamEvent p =>
    ({ s with streamedText := s.streamedText || (streamEventOut p).2 }, (streamEventOut p).1)
  | RuntimeMsg.assistantMessage blocks => (s, agentBlocksEvents s.streamedText blocks)
  | RuntimeMsg.resultMessage _ =>
    let s1 := { s with queryActive := false, streamedText := false }
    if s.interruptFlag then ({ s1 with interruptFlag := false }, [])
    else if s.userMessageFlag then
      ({ s1 with userMessageFlag := false },
       [Event.log "Turn ended" "debug", Event.turnEnded])
    else (s1, [Event.log "Turn ended" "debug", Event.turnEnded])
  | RuntimeMsg.otherMsg => (s, [])

-- --- Command Dispatcher (`main` loop body) ---

/-- The preamble built by the `set_context` branch: the join of the parts
present (`warrior_code` wrapped in a redcode fence, `recent_battle`
tagged), replacing `current_context` outright. -/
def contextString (warriorCode recentBattle : String) : String :=
  String.intercalate "\n"
    ((if warriorCode = "" then []
      else ["[Context] Current warrior code in editor:\n```redcode\n" ++ warriorCode ++ "\n```"]) ++
     (if recentBattle = "" then [] else ["[Context] " ++ recentBattle]))

/-- The text forwarded to `client.query`: the context-prefixed message when
`current_context` is non-empty, the raw text otherwise. -/
def fullMessage (ctx text : String) : String :=
  if ctx = "" then text else ctx ++ "\n\nUser message: " ++ text

/-- Result of the main loop processing one dequeued command: new state,
stdout events, and the texts passed to `client.query`. -/
structure RunOut where
  state : SysState
  events : List Event
  queries : List String
deriving DecidableEq

/-- One iteration of the `while running` dispatch in `main` for one
dequeued command.  `start_session` is idempotent; an empty `user_message`
text hits `if not text: continue` before anything else; `tool_response`
and unknown commands have no branch in the `if/elif` chain; `shutdown`
cancels the agent task, disconnects the client and clears `running`. -/
def mainCmdStep (s : SysState) : Command → RunOut
  | Command.startSession =>
    if s.clientActive then ⟨s, [], []⟩
    else ⟨{ s with clientActive := true },
          [Event.sessionReady, Event.log "Session started" "info"], []⟩
  | Command.userMessage text =>
    if text = "" then ⟨s, [], []⟩
    else if s.clientActive then
      ⟨{ s with userMessageFlag := true
              , interruptFlag := if s.queryActive then true else s.interruptFlag
              , queryActive := true },
       [], [fullMessage s.currentContext text]⟩
    else ⟨s, [Event.error "No active session"], []⟩
  | Command.setContext wc rb =>
    ⟨{ s with currentContext := contextString wc rb }, [], []⟩
  | Command.toolResponse _ _ _ => ⟨s, [], []⟩
  | Command.unknown _ => ⟨s, [], []⟩
  | Command.shutdown =>
    ⟨{ s with clientActive := false, running := false }, [], []⟩

/-- An interleaved input to the coordinator side of the system: either the
main loop dequeues a command, or `run_agent` receives the next runtime
message. -/
inductive SysInput
  | fromQueue (c : Command)
  | fromRuntime (m : RuntimeMsg)
deriving DecidableEq

def sysStep (s : SysState) : SysInput → RunOut
  | SysInput.fromQueue c => mainCmdStep s c
  | SysInput.fromRuntime m => ⟨(runAgentStep s m).1, (runAgentStep s m).2, []⟩

/-- Run a whole interleaving of dequeued commands and runtime messages,
concatenating the emitted events and forwarded queries in order. -/
def sysRun (s : SysState) : List SysInput → RunOut
  | [] => ⟨s, [], []⟩
  | i :: rest =>
    let o1 := sysStep s i
    let o2 := sysRun o1.state rest
    ⟨o2.state, o1.events ++ o2.events, o1.queries ++ o2.queries⟩

/-- A quiescent session state: client connected, no turn in flight, empty
registry and queue. -/
def readyState : SysState :=
  { registry := ⟨[], 0⟩
    commandQueue := []
    currentContext := ""
    clientActive := true
    running := true
    interruptFlag := false
    userMessageFlag := false
    queryActive := false
    streamedText := false }

/-- A state with a turn in flight and one open pending call, as left by a
user message whose query issued one tool invocation. -/
def busyState : SysState :=
  { registry := ⟨[(0, FutureState.unsettled)], 1⟩
    commandQueue := []
    currentContext := ""
    clientActive := true
    running := true
    interruptFlag := false
    userMessageFlag := true
    queryActive := true
    streamedText := false }

/-- Does the future for `rid` exist and remain unsettled? -/
def slotOpen (r : Registry) (rid : Nat) : Bool :=
  match registryLookup r rid with
  | some FutureState.unsettled => true
  | _ => false

-- --- Helper lemmas ---

theorem filterKey_find_none (l : List (Nat × FutureState)) (rid : Nat) :
    (l.filter (fun p => p.1 != rid)).find? (fun p => p.1 == rid) = none := by
  rw [List.find?_eq_none]
  intro p hp
  have hmem := List.mem_filter.mp hp
  have hne : p.1 ≠ rid := by
    have := hmem.2
    simpa [bne_iff_ne] using this
  simp [hne]

theorem lookup_remove_self (r : Registry) (rid : Nat) :
    registryLookup (registryRemove r rid) rid = none := by
  show ((r.pending.filter (fun p => p.1 != rid)).find? (fun p => p.1 == rid)).map _ = none
  rw [filterKey_find_none]
  rfl

theorem settle_map_eq (l : List (Nat × FutureState)) (rid : Nat) (v : FutureState)
    (h : ∀ p ∈ l, p.1 ≠ rid) :
    l.map (fun p => if p.1 = rid then (p.1, v) else p) = l := by
  induction l with
  | nil => rfl
  | cons a t ih =>
    rw [List.map_cons, if_neg (h a (List.mem_cons_self a t)),
      ih (fun p hp => h p (List.mem_cons_of_mem a hp))]

theorem filter_ne_eq (l : List (Nat × FutureState)) (rid : Nat)
    (h : ∀ p ∈ l, p.1 ≠ rid) :
    l.filter (fun p => p.1 != rid) = l := by
  induction l with
  | nil => rfl
  | cons a t ih =>
    rw [List.filter_cons, if_pos (bne_iff_ne.mpr (h a (List.mem_cons_self a t))),
      ih (fun p hp => h p (List.mem_cons_of_mem a hp))]

theorem bridgeRun_rid (r : Registry) (tool : String) (c : Completion) :
    (bridgeRequestRun r tool c).rid = r.nextId := by
  cases c with
  | settled t e d =>
    by_cases h : t < bridgeTimeoutSeconds <;> simp [bridgeRequestRun, h]
  | noResponse => rfl
  | cancelledAtShutdown => rfl

theorem bridgeRun_nextId (r : Registry) (tool : String) (c : Completion) :
    (bridgeRequestRun r tool c).registry.nextId = r.nextId + 1 := by
  cases c with
  | settled t e d =>
    by_cases h : t < bridgeTimeoutSeconds <;>
      simp [bridgeRequestRun, h, registryRemove, registrySettle]
  | noResponse => rfl
  | cancelledAtShutdown => rfl

theorem bridgeRun_pending (r : Registry) (tool : String) (c : Completion)
    (h : ∀ p ∈ r.pending, p.1 ≠ r.nextId) :
    (bridgeRequestRun r tool c).registry.pending = r.pending := by
  have hfilter : r.pending.filter (fun p => p.1 != r.nextId) = r.pending :=
    filter_ne_eq r.pending r.nextId h
  cases c with
  | settled t e d =>
    by_cases ht : t < bridgeTimeoutSeconds <;>
      simp [bridgeRequestRun, ht, registryRemove, registrySettle, List.filter_cons,
        settle_map_eq r.pending r.nextId _ h, hfilter]
  | noResponse =>
    simp [bridgeRequestRun, registryRemove, List.filter_cons, hfilter]
  | cancelledAtShutdown =>
    simp [bridgeRequestRun, registryRemove, List.filter_cons, hfilter]

theorem bridgeSeq_lb (calls : List (String × Completion)) :
    ∀ (r : Registry), ∀ i ∈ (bridgeSeq r calls).1, r.nextId ≤ i := by
  induction calls with
  | nil => intro r i hi; simp [bridgeSeq] at hi
  | cons tc rest ih =>
    intro r i hi
    simp only [bridgeSeq, List.mem_cons] at hi
    cases hi with
    | inl h => rw [h, bridgeRun_rid]
    | inr h =>
      have h2 := ih (bridgeRequestRun r tc.1 tc.2).registry i h
      rw [bridgeRun_nextId] at h2
      omega

theorem mainIdleIter_eq (s : SysState) : ∀ n, mainIdleIter s n = s := by
  intro n
  induction n with
  | zero => rfl
  | succ m ih => exact ih

-- --- Claim theorems ---

/-- C7 (counterexample): an unparseable stdin line produces NO outbound
event at all — in particular not the single `error` event echoing the raw
text that the claim requires; only a stderr debug line is written. -/
theorem c7_malformed_counterexample :
    (readerLineStep readyState (InLine.malformed "this is not JSON")).events = [] ∧
    (readerLineStep readyState (InLine.malformed "this is not JSON")).events
      ≠ [Event.error "this is not JSON"] ∧
    (readerLineStep readyState (InLine.malformed "this is not JSON")).state = readyState := by
  decide

/-- C7 (amended): a line that is not parseable structured data is skipped
after one stderr debug line: zero outbound events, the session state is
left unchanged, and the handler returns normally (it is a total function,
so the process neither crashes nor terminates the session). -/
theorem c7_malformed_line (s : SysState) (raw : String) :
    readerLineStep s (InLine.malformed raw) = ⟨s, [], 1⟩ := rfl

/-- C10: a `user_message` command whose text is empty (or absent, since
`cmd.get("text", "")` defaults to empty) hits `if not text: continue`
before anything else: no query is forwarded, no event is emitted, and the
whole state — session, flags, context, registry — is unchanged. -/
theorem c10_empty_user_message (s : SysState) :
    mainCmdStep s (Command.userMessage "") = ⟨s, [], []⟩ := rfl

/-- C9: `set_context` replaces `current_context` with the string built
from its own fields (the old preamble does not appear in the result),
emits no event, forwards no query and changes no other state field; and a
non-empty preamble is prepended to the text forwarded for the next user
message, in the exact `f"{context}\n\nUser message: {text}"` shape. -/
theorem c9_set_context :
    (∀ (s : SysState) (wc rb : String),
      mainCmdStep s (Command.setContext wc rb)
        = ⟨{ s with currentContext := contextString wc rb }, [], []⟩) ∧
    (∀ (s : SysState) (text : String), text ≠ "" → s.clientActive = true →
      (mainCmdStep s (Command.userMessage text)).queries
        = [fullMessage s.currentContext text]) ∧
    (∀ (ctx text : String), ctx ≠ "" →
      fullMessage ctx text = ctx ++ "\n\nUser message: " ++ text) := by
  refine ⟨fun s wc rb => rfl, fun s text ht hc => ?_, fun ctx text hc => ?_⟩
  · simp [mainCmdStep, ht, hc]
  · simp [fullMessage, hc]

/-- C9 (witness): concrete instance of `c9_set_context`. -/
theorem c9_set_context_witness :
    mainCmdStep readyState (Command.setContext "MOV 0, 1" "")
      = ⟨{ readyState with currentContext := contextString "MOV 0, 1" "" }, [], []⟩ ∧
    (mainCmdStep { readyState with currentContext := "ctx" }
        (Command.userMessage "hello")).queries = [fullMessage "ctx" "hello"] ∧
    fullMessage "ctx" "hello" = "ctx" ++ "\n\nUser message: " ++ "hello" :=
  ⟨c9_set_context.1 readyState "MOV 0, 1" "",
   c9_set_context.2.1 { readyState with currentContext := "ctx" } "hello"
     (by decide) (by decide),
   c9_set_context.2.2 "ctx" "hello" (by decide)⟩

/-- C6 (counterexample): with a turn in flight and an open pending call,
end of input leaves the reader's state exactly as it was — the process
keeps running, the client stays connected and the pending call is still
open — whereas an actual `shutdown` command clears `running`.  So stream
closure does NOT behave as an implicit shutdown. -/
theorem c6_eof_counterexample :
    (readerAtEof busyState).state.running = true ∧
    (readerAtEof busyState).state.clientActive = true ∧
    (readerAtEof busyState).state.registry.pending = [(0, FutureState.unsettled)] ∧
    (mainCmdStep busyState Command.shutdown).state.running = false ∧
    (mainCmdStep busyState Command.shutdown).state.clientActive = false := by
  decide

/-- C6 (amended): when the inbound stream reaches end of input the reader
thread just exits after a stderr debug line: nothing is enqueued, no event
is emitted and no state field changes; the main loop keeps idling on its
queue timeout indefinitely, so no shutdown is triggered, no pending call is
abandoned and the process keeps running until an explicit `shutdown`
command or a termination signal. -/
theorem c6_eof_no_shutdown (s : SysState) (n : Nat) :
    readerAtEof s = ⟨s, [], 1⟩ ∧ mainIdleIter s n = s := by
  exact ⟨rfl, mainIdleIter_eq s n⟩

/-- C8: resolving a `tool_response` whose request id is unknown to
`pending_requests`, or whose future is already settled, is a logged no-op:
the state (registry included) is returned unchanged, no outbound event is
emitted, three stderr debug lines are written, and the handler returns
normally (no exception reaches the reader loop). -/
theorem c8_unknown_or_settled_noop (s : SysState) (rid : Nat) (d : String) (e : Bool)
    (h : slotOpen s.registry rid = false) :
    readerLineStep s (InLine.parsed (Command.toolResponse (some rid) d e)) = ⟨s, [], 3⟩ := by
  unfold slotOpen at h
  cases hl : registryLookup s.registry rid with
  | none => simp [readerLineStep, hl]
  | some fs =>
    cases fs with
    | unsettled => rw [hl] at h; simp at h
    | doneOk data => simp [readerLineStep, hl]
    | doneErr reason => simp [readerLineStep, hl]

/-- C8 (witness): a response for id 7, unknown to an empty registry, and a
duplicate response for an already-settled slot are both no-ops. -/
theorem c8_unknown_or_settled_noop_witness :
    readerLineStep readyState (InLine.parsed (Command.toolResponse (some 7) "late" false))
      = ⟨readyState, [], 3⟩ :=
  c8_unknown_or_settled_noop readyState 7 "late" false (by decide)

/-- C1: the deadline `bridge_request` passes to `asyncio.wait_for` is 30
time units.  If the response would arrive only at or after the deadline,
or never arrives, `wait_for` raises `TimeoutError`: the call's entry is
popped from `pending_requests` in the `finally` block (lookup afterwards
fails) and `call_tool` surfaces the timeout to the runtime as the
"Tool request timed out" failure.  A `tool_response` for that id arriving
after this point finds the id unknown: the reader accepts it without
error (normal return, three stderr debug lines) and changes nothing. -/
theorem c1_tool_timeout :
    bridgeTimeoutSeconds = 30 ∧
    (∀ (r : Registry) (tool : String) (t : Nat) (e : Bool) (d : String),
      bridgeTimeoutSeconds ≤ t →
      (bridgeRequestRun r tool (Completion.settled t e d)).result = BridgeResult.timedOut ∧
      registryLookup (bridgeRequestRun r tool (Completion.settled t e d)).registry
        (bridgeRequestRun r tool (Completion.settled t e d)).rid = none ∧
      callToolOutcome tool (bridgeRequestRun r tool (Completion.settled t e d)).result
        = CallToolOut.raisedMessage ("Tool request timed out: " ++ tool)) ∧
    (∀ (r : Registry) (tool : String),
      (bridgeRequestRun r tool Completion.noResponse).result = BridgeResult.timedOut ∧
      registryLookup (bridgeRequestRun r tool Completion.noResponse).registry
        (bridgeRequestRun r tool Completion.noResponse).rid = none) ∧
    (∀ (s : SysState) (rid : Nat) (d : String) (e : Bool),
      registryLookup s.registry rid = none →
      readerLineStep s (InLine.parsed (Command.toolResponse (some rid) d e)) = ⟨s, [], 3⟩) := by
  refine ⟨rfl, fun r tool t e d ht => ?_, fun r tool => ?_, fun s rid d e h => ?_⟩
  · have hnot : ¬ t < bridgeTimeoutSeconds := Nat.not_lt.mpr ht
    refine ⟨by simp [bridgeRequestRun, hnot], ?_, by simp [bridgeRequestRun, hnot, callToolOutcome]⟩
    simp only [bridgeRequestRun, hnot, if_false]
    exact lookup_remove_self _ _
  · exact ⟨rfl, lookup_remove_self _ _⟩
  · simp [readerLineStep, h]

/-- C1 (witness): a response that would arrive exactly at the 30-unit
deadline is not received: the call times out, its slot is freed, the
timeout is surfaced, and the late response is then a no-op. -/
theorem c1_tool_timeout_witness :
    (bridgeRequestRun ⟨[], 5⟩ "get_profile" (Completion.settled 30 false "payload")).result
      = BridgeResult.timedOut ∧
    registryLookup (bridgeRequestRun ⟨[], 5⟩ "get_profile"
      (Completion.settled 30 false "payload")).registry
      (bridgeRequestRun ⟨[], 5⟩ "get_profile" (Completion.settled 30 false "payload")).rid
      = none ∧
    callToolOutcome "get_profile"
      (bridgeRequestRun ⟨[], 5⟩ "get_profile" (Completion.settled 30 false "payload")).result
      = CallToolOut.raisedMessage ("Tool request timed out: " ++ "get_profile") :=
  c1_tool_timeout.2.1 ⟨[], 5⟩ "get_profile" 30 false "payload" (by decide)

/-- C5: the stdin reader services tool resolutions without the main loop.
For EVERY shared state — in particular one whose `query_active` flag says
the coordinator is blocked inside `client.query` — a `tool_response` line
for an open slot settles that future in place, leaving the command queue
and every other field untouched; every non-`tool_response` command is only
appended to the queue, leaving the registry untouched; and a response
settled before the deadline reaches the bridge as the actual payload
(success or failure), not as a timeout. -/
theorem c5_reader_nonstarvation :
    (∀ (s : SysState) (rid : Nat) (d : String) (e : Bool),
      s.queryActive = true →
      registryLookup s.registry rid = some FutureState.unsettled →
      readerLineStep s (InLine.parsed (Command.toolResponse (some rid) d e))
        = ⟨{ s with registry := registrySettle s.registry rid (settleValue e d) }, [], 3⟩) ∧
    (∀ (s : SysState) (c : Command), isToolResponse c = false →
      readerLineStep s (InLine.parsed c)
        = ⟨{ s with commandQueue := s.commandQueue ++ [c] }, [], 1⟩) ∧
    (∀ (r : Registry) (tool : String) (t : Nat) (e : Bool) (d : String),
      t < bridgeTimeoutSeconds →
      (bridgeRequestRun r tool (Completion.settled t e d)).result
        = (if e then BridgeResult.err d else BridgeResult.ok d)) := by
  refine ⟨fun s rid d e hq hl => ?_, fun s c hc => ?_, fun r tool t e d ht => ?_⟩
  · simp [readerLineStep, hl]
  · cases c with
    | toolResponse req d e => simp [isToolResponse] at hc
    | startSession => rfl
    | userMessage text => rfl
    | setContext wc rb => rfl
    | shutdown => rfl
    | unknown n => rfl
  · simp [bridgeRequestRun, ht]

/-- C5 (witness): while `busyState` has `query_active` set, a
`tool_response` for the open call 0 settles it; a `user_message` is only
queued; and a response arriving at time 2 yields the payload. -/
theorem c5_reader_nonstarvation_witness :
    readerLineStep busyState (InLine.parsed (Command.toolResponse (some 0) "out" false))
      = ⟨{ busyState with
            registry := registrySettle busyState.registry 0 (settleValue false "out") },
         [], 3⟩ ∧
    readerLineStep busyState (InLine.parsed (Command.userMessage "hi"))
      = ⟨{ busyState with commandQueue := busyState.commandQueue ++ [Command.userMessage "hi"] },
         [], 1⟩ ∧
    (bridgeRequestRun ⟨[], 0⟩ "get_profile" (Completion.settled 2 false "out")).result
      = (if false then BridgeResult.err "out" else BridgeResult.ok "out") :=
  ⟨c5_reader_nonstarvation.1 busyState 0 "out" false (by decide) (by decide),
   c5_reader_nonstarvation.2.1 busyState (Command.userMessage "hi") (by decide),
   c5_reader_nonstarvation.2.2 ⟨[], 0⟩ "get_profile" 2 false "out" (by decide)⟩

/-- C3 (counterexample): in a turn where no streaming occurred, an
aggregate text block consisting of one space is NOT emitted at all — the
`if block.text.strip():` guard drops it — contradicting "the aggregate
block is emitted verbatim exactly once". -/
theorem c3_whitespace_aggregate_counterexample :
    agentBlocksEvents false [ContentBlock.textBlock " "] = [] ∧
    agentBlocksEvents false [ContentBlock.textBlock " "] ≠ [Event.agentText " "] := by
  decide

/-- C3 (amended): once the streamed-text flag is set, no `agent_text` or
`agent_thinking` event is emitted for any later aggregate block of the
turn; with no streaming, an aggregate text block is emitted verbatim
exactly once provided its text contains a non-whitespace character
(whitespace-only blocks are dropped), and an aggregate thinking block is
emitted verbatim exactly once unconditionally; and the streamed-text flag
is cleared when the turn's `ResultMessage` arrives. -/
theorem c3_streaming_dedup :
    (∀ (blocks : List ContentBlock),
      (agentBlocksEvents true blocks).filter isAggregateEvent = []) ∧
    (∀ (t : String), hasVisibleText t = true →
      agentBlocksEvents false [ContentBlock.textBlock t] = [Event.agentText t]) ∧
    (∀ (t : String),
      agentBlocksEvents false [ContentBlock.thinkingBlock t] = [Event.agentThinking t]) ∧
    (∀ (s : SysState) (e : Bool),
      (runAgentStep s (RuntimeMsg.resultMessage e)).1.streamedText = false) := by
  refine ⟨fun blocks => ?_, fun t ht => ?_, fun t => ?_, fun s e => ?_⟩
  · induction blocks with
    | nil => rfl
    | cons b bs ih =>
      cases b <;>
        simpa [agentBlocksEvents, emitBlock, isAggregateEvent, List.filter_append] using ih
  · simp [agentBlocksEvents, emitBlock, ht]
  · simp [agentBlocksEvents, emitBlock]
  · cases hI : s.interruptFlag <;> cases hU : s.userMessageFlag <;>
      simp [runAgentStep, hI, hU]

/-- C3 (witness): with the flag set, a text and a thinking block emit no
aggregate event; with the flag clear, "pong" is emitted verbatim once. -/
theorem c3_streaming_dedup_witness :
    (agentBlocksEvents true
      [ContentBlock.textBlock "pong", ContentBlock.thinkingBlock "hmm"]).filter
        isAggregateEvent = [] ∧
    agentBlocksEvents false [ContentBlock.textBlock "pong"] = [Event.agentText "pong"] :=
  ⟨c3_streaming_dedup.1 [ContentBlock.textBlock "pong", ContentBlock.thinkingBlock "hmm"],
   c3_streaming_dedup.2.1 "pong" (by decide)⟩

/-- C4 (counterexample): shutdown does NOT settle still-open slots with a
failure.  The `shutdown` branch of `main` never touches
`pending_requests` — with one still-open slot, the registry after the
shutdown command is bit-for-bit unchanged, the slot still unsettled — and
a still-open `bridge_request` ended by the cancellation at loop teardown
yields a cancellation, not a failure settlement: no reason is stored in
the slot and `call_tool`'s `except Exception` does not catch it. -/
theorem c4_shutdown_no_failure_counterexample :
    (mainCmdStep busyState Command.shutdown).state.registry
      = ⟨[(0, FutureState.unsettled)], 1⟩ ∧
    (bridgeRequestRun ⟨[], 0⟩ "get_profile" Completion.cancelledAtShutdown).result
      = BridgeResult.cancelled ∧
    isFailureResult
      (bridgeRequestRun ⟨[], 0⟩ "get_profile" Completion.cancelledAtShutdown).result
      = false ∧
    callToolOutcome "get_profile"
      (bridgeRequestRun ⟨[], 0⟩ "get_profile" Completion.cancelledAtShutdown).result
      = CallToolOut.cancelledCall := by
  decide

/-- C4 (amended): every correlation id handed out by the bridge is
globally fresh (distinct from every currently pending id, and the ids of
any sequence of calls are pairwise distinct for the life of the process),
and each call's registry entry is removed exactly once by the `finally`
pop, whichever way the call ends — resolved with a payload, rejected with
a failure, timed out, or abandoned when the session shuts down: afterwards
the id is gone and the registry's other entries are exactly as before the
call.  Shutdown, however, settles no slot with a failure: the `shutdown`
branch leaves the registry untouched, and a still-open call ends by
cancellation (surfaced as such, not as a tool failure), its own `finally`
doing the one removal. -/
theorem c4_correlation_unique_removed_once :
    (∀ (r : Registry) (tool : String) (c : Completion), regInv r = true →
      ((bridgeRequestRun r tool c).rid ∈ r.pending.map Prod.fst → False) ∧
      (bridgeRequestRun r tool c).registry.pending = r.pending ∧
      registryLookup (bridgeRequestRun r tool c).registry (bridgeRequestRun r tool c).rid
        = none ∧
      regInv (bridgeRequestRun r tool c).registry = true) ∧
    (∀ (r : Registry) (calls : List (String × Completion)),
      (bridgeSeq r calls).1.Nodup) ∧
    (∀ (s : SysState), (mainCmdStep s Command.shutdown).state.registry = s.registry) ∧
    (∀ (r : Registry) (tool : String),
      (bridgeRequestRun r tool Completion.cancelledAtShutdown).result
        = BridgeResult.cancelled ∧
      isFailureResult (bridgeRequestRun r tool Completion.cancelledAtShutdown).result
        = false) := by
  refine ⟨?_, ?_, fun s => rfl, fun r tool => ⟨rfl, rfl⟩⟩
  · intro r tool c hInv
    have hn : ∀ p ∈ r.pending, p.1 ≠ r.nextId := by
      intro p hp
      have hall := List.all_eq_true.mp hInv p hp
      have hlt : p.1 < r.nextId := of_decide_eq_true hall
      omega
    refine ⟨?_, bridgeRun_pending r tool c hn, ?_, ?_⟩
    · intro hmem
      rw [bridgeRun_rid] at hmem
      rcases List.mem_map.mp hmem with ⟨p, hp, hfst⟩
      exact hn p hp hfst
    · cases c with
      | settled t e d =>
        by_cases ht : t < bridgeTimeoutSeconds <;>
          simp only [bridgeRequestRun, ht, if_true, if_false] <;>
          exact lookup_remove_self _ _
      | noResponse => exact lookup_remove_self _ _
      | cancelledAtShutdown => exact lookup_remove_self _ _
    · rw [regInv, bridgeRun_pending r tool c hn, List.all_eq_true]
      intro p hp
      have hall := List.all_eq_true.mp hInv p hp
      have hlt : p.1 < r.nextId := of_decide_eq_true hall
      rw [bridgeRun_nextId]
      exact decide_eq_true (by omega)
  · intro r calls
    induction calls generalizing r with
    | nil => simp [bridgeSeq]
    | cons tc rest ih =>
      simp only [bridgeSeq]
      refine List.nodup_cons.mpr ⟨?_, ih _⟩
      intro hmem
      have h2 := bridgeSeq_lb rest (bridgeRequestRun r tc.1 tc.2).registry _ hmem
      rw [bridgeRun_nextId, bridgeRun_rid] at h2
      omega

/-- C4 (witness): against a registry already holding id 0, a call that is
abandoned at shutdown gets the fresh id 1, restores the registry, leaves
its own id unregistered and ends in a cancellation, not a failure; three
consecutive calls get distinct ids; and a shutdown command leaves the
registry of `busyState` untouched. -/
theorem c4_correlation_unique_removed_once_witness :
    ((bridgeRequestRun ⟨[(0, FutureState.unsettled)], 1⟩ "upload_warrior"
        Completion.cancelledAtShutdown).rid
      ∈ ([(0, FutureState.unsettled)] : List (Nat × FutureState)).map Prod.fst → False) ∧
    (bridgeRequestRun ⟨[(0, FutureState.unsettled)], 1⟩ "upload_warrior"
        Completion.cancelledAtShutdown).registry.pending = [(0, FutureState.unsettled)] ∧
    (bridgeSeq ⟨[], 0⟩ [("get_profile", Completion.noResponse),
        ("challenge_player", Completion.settled 1 true "boom"),
        ("get_leaderboard", Completion.settled 2 false "ok")]).1.Nodup ∧
    (mainCmdStep busyState Command.shutdown).state.registry = busyState.registry ∧
    isFailureResult (bridgeRequestRun ⟨[(0, FutureState.unsettled)], 1⟩ "upload_warrior"
        Completion.cancelledAtShutdown).result = false :=
  ⟨(c4_correlation_unique_removed_once.1 ⟨[(0, FutureState.unsettled)], 1⟩
      "upload_warrior" Completion.cancelledAtShutdown (by decide)).1,
   (c4_correlation_unique_removed_once.1 ⟨[(0, FutureState.unsettled)], 1⟩
      "upload_warrior" Completion.cancelledAtShutdown (by decide)).2.1,
   c4_correlation_unique_removed_once.2.1 ⟨[], 0⟩ _,
   c4_correlation_unique_removed_once.2.2.1 busyState,
   (c4_correlation_unique_removed_once.2.2.2 ⟨[(0, FutureState.unsettled)], 1⟩
      "upload_warrior").2⟩

/-- C2 (counterexample): `interrupt_flag` is a single boolean, so stacked
preemptions do not collapse.  From a quiescent session, three user
messages accepted before any completion set the flag only once; of the
three completions the first is swallowed but BOTH later ones emit
`turn_ended` — two events where the claim demands exactly one (only the
last message's completion externally visible). -/
theorem c2_stacked_preemption_counterexample :
    ((sysRun readyState
      [SysInput.fromQueue (Command.userMessage "m1"),
       SysInput.fromQueue (Command.userMessage "m2"),
       SysInput.fromQueue (Command.userMessage "m3"),
       SysInput.fromRuntime (RuntimeMsg.resultMessage false),
       SysInput.fromRuntime (RuntimeMsg.resultMessage false),
       SysInput.fromRuntime (RuntimeMsg.resultMessage false)]).events.count
        Event.turnEnded) = 2 ∧
    ((sysRun readyState
      [SysInput.fromQueue (Command.userMessage "m1"),
       SysInput.fromQueue (Command.userMessage "m2"),
       SysInput.fromQueue (Command.userMessage "m3"),
       SysInput.fromRuntime (RuntimeMsg.resultMessage false),
       SysInput.fromRuntime (RuntimeMsg.resultMessage false),
       SysInput.fromRuntime (RuntimeMsg.resultMessage false)]).events.count
        Event.turnEnded) ≠ 1 := by
  decide

/-- C2 (amended): for a single preemption from a quiescent session — M1
then M2 accepted before M1's turn completes, the runtime reporting the two
completions in query order — the preempted turn M1's completion is
swallowed (the first three inputs emit nothing outward) and exactly one
`turn_ended` is emitted, by the step that processes M2's completion.
Stacked preemptions, however, do not collapse (see the counterexample):
with k ≥ 2 preemptions accepted before the first completion arrives, only
one completion is swallowed and every later one emits `turn_ended`. -/
theorem c2_single_preemption (s : SysState) (t1 t2 : String) (e1 e2 : Bool)
    (hc : s.clientActive = true) (hq : s.queryActive = false)
    (hi : s.interruptFlag = false) (hu : s.userMessageFlag = false)
    (h1 : t1 ≠ "") (h2 : t2 ≠ "") :
    (sysRun s [SysInput.fromQueue (Command.userMessage t1),
               SysInput.fromQueue (Command.userMessage t2),
               SysInput.fromRuntime (RuntimeMsg.resultMessage e1)]).events = [] ∧
    (sysRun s [SysInput.fromQueue (Command.userMessage t1),
               SysInput.fromQueue (Command.userMessage t2),
               SysInput.fromRuntime (RuntimeMsg.resultMessage e1),
               SysInput.fromRuntime (RuntimeMsg.resultMessage e2)]).events
      = [Event.log "Turn ended" "debug", Event.turnEnded] := by
  constructor <;>
    simp [sysRun, sysStep, mainCmdStep, runAgentStep, h1, h2, hc, hq, hi, hu]

/-- C2 (witness): the single-preemption guarantee at the quiescent ready
state with messages "m1", "m2". -/
theorem c2_single_preemption_witness :
    (sysRun readyState
      [SysInput.fromQueue (Command.userMessage "m1"),
       SysInput.fromQueue (Command.userMessage "m2"),
       SysInput.fromRuntime (RuntimeMsg.resultMessage false)]).events = [] ∧
    (sysRun readyState
      [SysInput.fromQueue (Command.userMessage "m1"),
       SysInput.fromQueue (Command.userMessage "m2"),
       SysInput.fromRuntime (RuntimeMsg.resultMessage false),
       SysInput.fromRuntime (RuntimeMsg.resultMessage true)]).events
      = [Event.log "Turn ended" "debug", Event.turnEnded] :=
  c2_single_preemption readyState "m1" "m2" false true
    (by decide) (by decide) (by decide) (by decide) (by decide) (by decide)
